import Mathlib

/-!
Formal model of the FootballTalks match-outcome prediction engine
(`src/footballtalks/app.py`).  The four algorithmic components are
embedded shallowly: the team form summarizer (`recent_team_stats`),
the expected goal rate estimator (the module-level computation of
`lh`/`la` on lines 225-229), the Poisson scoreline grid builder
(`poisson_prob` / `score_matrix`), and the outcome probability
aggregator (`outcome_probs` and the `np.argmax` scoreline pick).
Python floats are modelled as rationals where the code only does
field arithmetic, and as reals where `math.exp` is involved.
-/

/-- Team form summary produced by `recent_team_stats` (the dict with keys
`gf`, `ga`, `pts_per_game`, `form_val`). -/
structure TeamFormSummary where
  gf : ℚ
  ga : ℚ
  pts_per_game : ℚ
  form_val : ℚ
  deriving DecidableEq

/-- One raw finished-match record as consumed by `recent_team_stats`: ids of
the home and away teams, optional full-time goal counts (`None` in the JSON
becomes `none`; a missing `fullTime` object behaves like two `none`s), and
the `score.winner` designation string. -/
structure MatchRec where
  homeId : ℕ
  awayId : ℕ
  ftHome : Option ℤ
  ftAway : Option ℤ
  winner : String
  deriving DecidableEq

/-- Accumulator of the loop in `recent_team_stats`: running goal totals,
points and the count of valid matches. -/
structure FormAcc where
  gf : ℤ
  ga : ℤ
  pts : ℤ
  count : ℕ
  deriving DecidableEq

/-- One iteration of the loop in `recent_team_stats`: records lacking a
full-time home or away goal count are skipped (`continue`); otherwise goals
for/against are taken from the perspective team's side (via `_gf`/`_ga`) and
points are awarded from `score.winner`. -/
def form_step (team_id : ℕ) (acc : FormAcc) (m : MatchRec) : FormAcc :=
  match m.ftHome, m.ftAway with
  | some h, some a =>
    { gf := acc.gf + (if team_id = m.homeId then h else a)
      ga := acc.ga + (if team_id = m.homeId then a else h)
      pts := acc.pts + (if m.winner = "DRAW" then 1
        else if m.winner = "HOME_TEAM" ∧ team_id = m.homeId then 3
        else if m.winner = "AWAY_TEAM" ∧ team_id = m.awayId then 3 else 0)
      count := acc.count + 1 }
  | _, _ => acc

/-- The default summary `recent_team_stats` returns when the fetched match
list is empty (`if not matches`). -/
def default_summary : TeamFormSummary :=
  { gf := 1.2, ga := 1.1, pts_per_game := 1.5, form_val := 0.0 }

/-- `recent_team_stats` from `app.py` (lines 126-148), with the already
fetched match list passed in place of the network adapter: returns the
default summary on an empty list, otherwise per-game averages over
`max(count, 1)` where `count` is the number of valid records. -/
def recent_team_stats (team_id : ℕ) (ms : List MatchRec) : TeamFormSummary :=
  if ms.isEmpty then default_summary
  else
    let acc := ms.foldl (form_step team_id) ⟨0, 0, 0, 0⟩
    let games : ℚ := (max acc.count 1 : ℕ)
    let ppg : ℚ := (acc.pts : ℚ) / games
    { gf := (acc.gf : ℚ) / games
      ga := (acc.ga : ℚ) / games
      pts_per_game := ppg
      form_val := ppg - 1.0 }

/-- Python's `str.split()` with no argument: split on runs of whitespace,
discarding empty fragments.  Implemented over the character list so the
kernel can evaluate it. -/
def py_split_aux : List Char → List Char → List String
  | [], acc => if acc.isEmpty then [] else [⟨acc.reverse⟩]
  | c :: cs, acc =>
    if c.isWhitespace then
      if acc.isEmpty then py_split_aux cs [] else ⟨acc.reverse⟩ :: py_split_aux cs []
    else py_split_aux cs (c :: acc)

/-- Python's `desc.split()` for a whole string. -/
def py_split (s : String) : List String := py_split_aux s.data []

/-- Python's `str.lower()` (ASCII case fold, which is all the code needs). -/
def py_lower (s : String) : String := ⟨s.data.map Char.toLower⟩

/-- Python's `desc.split()[0]` modelled totally: the head of the whitespace
split.  `none` corresponds to the `IndexError` the source raises on a
wordless string. -/
def first_word (desc : String) : Option String :=
  (py_split desc).head?

/-- The expected goal rate estimator: module-level lines 225-229 of
`app.py`.  `lh` gets the 1.12 home-advantage factor; if the lowercase first
word of the weather description is "rain" or "snow" both rates are scaled by
0.95; finally both are capped at 3.2.  Returns `none` exactly when
`desc.split()[0]` would raise. -/
def estimate (hs aw : TeamFormSummary) (desc : String) : Option (ℚ × ℚ) :=
  let lh := max 0.2 (0.65 * hs.gf + 0.35 * aw.ga) * 1.12
  let la := max 0.2 (0.65 * aw.gf + 0.35 * hs.ga)
  match first_word desc with
  | none => none
  | some w =>
    let p := if py_lower w = "rain" ∨ py_lower w = "snow"
      then (lh * 0.95, la * 0.95) else (lh, la)
    some (min p.1 3.2, min p.2 3.2)

/-- Unfolding lemma for `estimate` when the split raises (`IndexError`). -/
lemma estimate_of_first_word_none (hs aw : TeamFormSummary) {desc : String}
    (hfw : first_word desc = none) : estimate hs aw desc = none := by
  unfold estimate
  rw [hfw]

/-- Unfolding lemma for `estimate` when the first word is not rain/snow. -/
lemma estimate_of_not_rain (hs aw : TeamFormSummary) {desc w : String}
    (hfw : first_word desc = some w)
    (hnw : ¬(py_lower w = "rain" ∨ py_lower w = "snow")) :
    estimate hs aw desc =
      some (min (max 0.2 (0.65 * hs.gf + 0.35 * aw.ga) * 1.12) 3.2,
            min (max 0.2 (0.65 * aw.gf + 0.35 * hs.ga)) 3.2) := by
  unfold estimate
  rw [hfw]
  simp [hnw]

/-- Unfolding lemma for `estimate` when the first word is rain or snow. -/
lemma estimate_of_rain (hs aw : TeamFormSummary) {desc w : String}
    (hfw : first_word desc = some w)
    (hw : py_lower w = "rain" ∨ py_lower w = "snow") :
    estimate hs aw desc =
      some (min (max 0.2 (0.65 * hs.gf + 0.35 * aw.ga) * 1.12 * 0.95) 3.2,
            min (max 0.2 (0.65 * aw.gf + 0.35 * hs.ga) * 0.95) 3.2) := by
  unfold estimate
  rw [hfw]
  simp [hw]

example : first_word "light rain" = some "light" := rfl
example : first_word "" = none := rfl
example : first_word "  " = none := rfl
example : recent_team_stats 0 [] = default_summary := rfl
example : estimate ⟨1, 1, 0, 0⟩ ⟨1, 1, 0, 0⟩ "clear" = some (28/25, 1) := by
  rw [estimate_of_not_rain _ _ (rfl : first_word "clear" = some "clear") (by decide)]
  norm_num [min_def, max_def]
example : estimate ⟨0, 0, 0, 0⟩ ⟨0, 0, 0, 0⟩ "rain" = some (133/625, 19/100) := by
  rw [estimate_of_rain _ _ (rfl : first_word "rain" = some "rain") (by decide)]
  norm_num [min_def, max_def]

/-- `poisson_prob` from `app.py` (line 151): the Poisson probability mass
function, with `math.exp` modelled by `Real.exp`. -/
noncomputable def poisson_prob (k : ℕ) (lam : ℝ) : ℝ :=
  Real.exp (-lam) * lam ^ k / (Nat.factorial k)

/-- `score_matrix` from `app.py` (lines 155-160): the
`(max_goals+1) × (max_goals+1)` joint scoreline grid, cell `[h, a]` being
the product of the two independent Poisson masses. -/
noncomputable def score_matrix (lh la : ℝ) (max_goals : ℕ := 6) :
    Fin (max_goals + 1) → Fin (max_goals + 1) → ℝ :=
  fun h a => poisson_prob h lh * poisson_prob a la

/-- PoissonPMF written from the spec's own words (§4.3:
`PoissonPMF(k; λ) = e^(−λ) · λ^k / k!`), kept separate from the source's
`poisson_prob` so the grid-cell claim compares code against spec. -/
noncomputable def PoissonPMF (k : ℕ) (lam : ℝ) : ℝ :=
  Real.exp (-lam) * lam ^ k / (Nat.factorial k)

/-- `np.tril(g, -1).sum()`: total mass of the cells strictly below the main
diagonal (home goals > away goals). -/
def home_mass {α : Type} [AddCommMonoid α] {n : ℕ} (g : Fin n → Fin n → α) : α :=
  ∑ h : Fin n, ∑ a : Fin n, if (a : ℕ) < (h : ℕ) then g h a else 0

/-- `np.trace(g)`: total mass of the diagonal (draws). -/
def draw_mass {α : Type} [AddCommMonoid α] {n : ℕ} (g : Fin n → Fin n → α) : α :=
  ∑ h : Fin n, g h h

/-- `np.triu(g, 1).sum()`: total mass strictly above the diagonal. -/
def away_mass {α : Type} [AddCommMonoid α] {n : ℕ} (g : Fin n → Fin n → α) : α :=
  ∑ h : Fin n, ∑ a : Fin n, if (h : ℕ) < (a : ℕ) then g h a else 0

/-- `outcome_probs` from `app.py` (lines 163-168): the below-diagonal,
diagonal and above-diagonal masses, each divided by their total.  There is
no guard on the denominator, exactly as in the source. -/
def outcome_probs {α : Type} [Field α] {n : ℕ} (g : Fin n → Fin n → α) : α × α × α :=
  let home := home_mass g
  let draw := draw_mass g
  let away := away_mass g
  let s := home + draw + away
  (home / s, draw / s, away / s)

/-- `np.argmax` over a vector of length `len` (here: the C-order flattening
of the grid): index of the maximum value, first occurrence on ties. -/
def np_argmax {α : Type} [LinearOrder α] (v : ℕ → α) (len : ℕ) : ℕ :=
  (List.range len).foldl (fun b k => if v b < v k then k else b) 0

/-- Cell of `g` at flat index `k` of the C-order (row-major) flattening,
the pairing `np.unravel_index` inverts. -/
def flat_cell {α : Type} {n : ℕ} (g : Fin (n + 1) → Fin (n + 1) → α) (k : ℕ) : α :=
  g ⟨k / (n + 1) % (n + 1), Nat.mod_lt _ (Nat.succ_pos n)⟩
    ⟨k % (n + 1), Nat.mod_lt _ (Nat.succ_pos n)⟩

/-- Line 232 of `app.py`:
`np.unravel_index(np.argmax(grid), grid.shape)` — the most likely
scoreline as a pair (home goals, away goals). -/
def most_likely_scoreline {α : Type} [LinearOrder α] {n : ℕ}
    (g : Fin (n + 1) → Fin (n + 1) → α) : ℕ × ℕ :=
  let k := np_argmax (flat_cell g) ((n + 1) * (n + 1))
  (k / (n + 1), k % (n + 1))

/-- Synthetic 2×2 grid with equal maximum cells at (0,0) and (1,1), the
tie-break scenario of §8 of the spec. -/
def tie_grid : Fin 2 → Fin 2 → ℚ :=
  fun h a => if (h : ℕ) = (a : ℕ) then 1/2 else 1/10

example : most_likely_scoreline tie_grid = (0, 0) := by
  norm_num [most_likely_scoreline, np_argmax, flat_cell, tie_grid, List.range_succ]

/-- `np.argmax` semantics: the returned index carries a maximal value, and
every strictly earlier index carries a strictly smaller value (first
occurrence wins ties). -/
lemma np_argmax_spec {α : Type} [LinearOrder α] (v : ℕ → α) (len : ℕ) :
    (∀ k, k < len → v k ≤ v (np_argmax v len)) ∧
      (np_argmax v len = 0 ∨ (np_argmax v len < len ∧
        ∀ j, j < np_argmax v len → v j < v (np_argmax v len))) := by
  induction len with
  | zero => exact ⟨fun k hk => absurd hk (Nat.not_lt_zero k), Or.inl rfl⟩
  | succ m ih =>
    have hstep : np_argmax v (m + 1) =
        if v (np_argmax v m) < v m then m else np_argmax v m := by
      unfold np_argmax
      rw [List.range_succ, List.foldl_append]
      rfl
    obtain ⟨hmax, hfirst⟩ := ih
    by_cases hlt : v (np_argmax v m) < v m
    · rw [hstep, if_pos hlt]
      refine ⟨fun k hk => ?_, Or.inr ⟨Nat.lt_succ_self m,
        fun j hj => lt_of_le_of_lt (hmax j hj) hlt⟩⟩
      rcases Nat.lt_succ_iff_lt_or_eq.mp hk with h | h
      · exact le_of_lt (lt_of_le_of_lt (hmax k h) hlt)
      · exact h ▸ le_refl _
    · rw [hstep, if_neg hlt]
      refine ⟨fun k hk => ?_, ?_⟩
      · rcases Nat.lt_succ_iff_lt_or_eq.mp hk with h | h
        · exact hmax k h
        · rw [h]; exact le_of_not_lt hlt
      · rcases hfirst with h | ⟨h1, h2⟩
        · exact Or.inl h
        · exact Or.inr ⟨Nat.lt_succ_of_lt h1, h2⟩

/-- Row-major flat index of the pair `(h, a)` stays below the grid size. -/
lemma pair_flat_lt {n : ℕ} (h a : Fin (n + 1)) :
    (h : ℕ) * (n + 1) + (a : ℕ) < (n + 1) * (n + 1) :=
  calc (h : ℕ) * (n + 1) + (a : ℕ)
      < (h : ℕ) * (n + 1) + (n + 1) := Nat.add_lt_add_left a.isLt _
    _ = ((h : ℕ) + 1) * (n + 1) := by ring
    _ ≤ (n + 1) * (n + 1) := Nat.mul_le_mul_right _ h.isLt

/-- `flat_cell` at the row-major index of `(h, a)` is the cell `(h, a)`. -/
lemma flat_cell_pair {α : Type} {n : ℕ} (g : Fin (n + 1) → Fin (n + 1) → α)
    (h a : Fin (n + 1)) : flat_cell g ((h : ℕ) * (n + 1) + (a : ℕ)) = g h a := by
  have hdiv : ((h : ℕ) * (n + 1) + (a : ℕ)) / (n + 1) = (h : ℕ) := by
    rw [mul_comm, Nat.mul_add_div (Nat.succ_pos n), Nat.div_eq_of_lt a.isLt,
      Nat.add_zero]
  have hmod : ((h : ℕ) * (n + 1) + (a : ℕ)) % (n + 1) = (a : ℕ) := by
    rw [Nat.add_comm, Nat.add_mul_mod_self_right, Nat.mod_eq_of_lt a.isLt]
  unfold flat_cell
  simp only [hdiv, hmod, Nat.mod_eq_of_lt h.isLt]

/-- `flat_cell` at an in-range flat index, unravelled. -/
lemma flat_cell_unravel {α : Type} {n : ℕ} (g : Fin (n + 1) → Fin (n + 1) → α)
    (k : ℕ) (hk : k < (n + 1) * (n + 1)) :
    flat_cell g k = g ⟨k / (n + 1), (Nat.div_lt_iff_lt_mul (Nat.succ_pos n)).mpr hk⟩
      ⟨k % (n + 1), Nat.mod_lt _ (Nat.succ_pos n)⟩ := by
  unfold flat_cell
  simp only [Nat.mod_eq_of_lt ((Nat.div_lt_iff_lt_mul (Nat.succ_pos n)).mpr hk)]

/-- Correctness of line 232 of `app.py`: the returned pair names a cell of
maximal value, and on ties the row-major-first cell. -/
lemma most_likely_scoreline_spec {α : Type} [LinearOrder α] {n : ℕ}
    (g : Fin (n + 1) → Fin (n + 1) → α) :
    ∃ hm am : Fin (n + 1), most_likely_scoreline g = ((hm : ℕ), (am : ℕ)) ∧
      (∀ h a, g h a ≤ g hm am) ∧
      (∀ h a, g h a = g hm am →
        (hm : ℕ) * (n + 1) + (am : ℕ) ≤ (h : ℕ) * (n + 1) + (a : ℕ)) := by
  obtain ⟨hmax, hfirst⟩ := np_argmax_spec (flat_cell g) ((n + 1) * (n + 1))
  have hrL : np_argmax (flat_cell g) ((n + 1) * (n + 1)) < (n + 1) * (n + 1) := by
    rcases hfirst with h0 | ⟨h1, _⟩
    · rw [h0]; exact Nat.mul_pos (Nat.succ_pos n) (Nat.succ_pos n)
    · exact h1
  set r := np_argmax (flat_cell g) ((n + 1) * (n + 1)) with hr
  have hvr : flat_cell g r =
      g ⟨r / (n + 1), (Nat.div_lt_iff_lt_mul (Nat.succ_pos n)).mpr hrL⟩
        ⟨r % (n + 1), Nat.mod_lt _ (Nat.succ_pos n)⟩ := flat_cell_unravel g r hrL
  refine ⟨⟨r / (n + 1), (Nat.div_lt_iff_lt_mul (Nat.succ_pos n)).mpr hrL⟩,
    ⟨r % (n + 1), Nat.mod_lt _ (Nat.succ_pos n)⟩, rfl, ?_, ?_⟩
  · intro h a
    have hk := hmax ((h : ℕ) * (n + 1) + (a : ℕ)) (pair_flat_lt h a)
    rwa [flat_cell_pair, hvr] at hk
  · intro h a heq
    have hval : r / (n + 1) * (n + 1) + r % (n + 1) = r := by
      rw [mul_comm]
      exact Nat.div_add_mod r (n + 1)
    rw [hval]
    rcases hfirst with h0 | ⟨_, h2⟩
    · rw [h0]; exact Nat.zero_le _
    · by_contra hc
      push_neg at hc
      have hlt := h2 _ hc
      rw [flat_cell_pair, hvr] at hlt
      exact absurd heq (ne_of_lt hlt)

/-- All three diagonal masses of a zero-mass-guarded sum: lifting a common
scalar factor out of the below-diagonal sum. -/
lemma home_mass_smul {n : ℕ} (c : ℝ) (g : Fin n → Fin n → ℝ) :
    home_mass (fun h a => c * g h a) = c * home_mass g := by
  simp only [home_mass, Finset.mul_sum, mul_ite, mul_zero]

/-- Scalar factor out of the diagonal sum. -/
lemma draw_mass_smul {n : ℕ} (c : ℝ) (g : Fin n → Fin n → ℝ) :
    draw_mass (fun h a => c * g h a) = c * draw_mass g := by
  simp only [draw_mass, Finset.mul_sum]

/-- Scalar factor out of the above-diagonal sum. -/
lemma away_mass_smul {n : ℕ} (c : ℝ) (g : Fin n → Fin n → ℝ) :
    away_mass (fun h a => c * g h a) = c * away_mass g := by
  simp only [away_mass, Finset.mul_sum, mul_ite, mul_zero]

/-- The Poisson mass is strictly positive for a positive rate. -/
lemma poisson_prob_pos {k : ℕ} {lam : ℝ} (h : 0 < lam) : 0 < poisson_prob k lam := by
  unfold poisson_prob
  positivity

/-- Every cell of the scoreline grid is strictly positive for positive rates. -/
lemma score_matrix_pos {lh la : ℝ} (hlh : 0 < lh) (hla : 0 < la) {n : ℕ}
    (h a : Fin (n + 1)) : 0 < score_matrix lh la n h a :=
  mul_pos (poisson_prob_pos hlh) (poisson_prob_pos hla)

/-- The below-diagonal mass of a nonnegative grid is nonnegative. -/
lemma home_mass_nonneg {n : ℕ} {g : Fin n → Fin n → ℝ}
    (hpos : ∀ h a, 0 ≤ g h a) : 0 ≤ home_mass g := by
  refine Finset.sum_nonneg fun h _ => Finset.sum_nonneg fun a _ => ?_
  by_cases hc : (a : ℕ) < (h : ℕ)
  · simpa [hc] using hpos h a
  · simp [hc]

/-- The above-diagonal mass of a nonnegative grid is nonnegative. -/
lemma away_mass_nonneg {n : ℕ} {g : Fin n → Fin n → ℝ}
    (hpos : ∀ h a, 0 ≤ g h a) : 0 ≤ away_mass g := by
  refine Finset.sum_nonneg fun h _ => Finset.sum_nonneg fun a _ => ?_
  by_cases hc : (h : ℕ) < (a : ℕ)
  · simpa [hc] using hpos h a
  · simp [hc]

/-- The total mass of a strictly positive grid is strictly positive, so the
divisions in `outcome_probs` have a nonzero denominator. -/
lemma total_mass_pos {n : ℕ} {g : Fin (n + 1) → Fin (n + 1) → ℝ}
    (hpos : ∀ h a, 0 < g h a) :
    0 < home_mass g + draw_mass g + away_mass g := by
  have h1 : 0 ≤ home_mass g := home_mass_nonneg fun h a => le_of_lt (hpos h a)
  have h2 : 0 < draw_mass g :=
    Finset.sum_pos (fun h _ => hpos h h) Finset.univ_nonempty
  have h3 : 0 ≤ away_mass g := away_mass_nonneg fun h a => le_of_lt (hpos h a)
  linarith

/-- Skipping-only behaviour of the accumulation loop: a window whose every
record lacks a goal count leaves the accumulator untouched. -/
lemma foldl_form_step_invalid (tid : ℕ) (ms : List MatchRec)
    (hinv : ∀ m ∈ ms, m.ftHome = none ∨ m.ftAway = none) (acc : FormAcc) :
    ms.foldl (form_step tid) acc = acc := by
  induction ms generalizing acc with
  | nil => rfl
  | cons m t ih =>
    have hm := hinv m (List.mem_cons_self m t)
    have hstep : form_step tid acc m = acc := by
      rcases hm with h1 | h1
      · cases ha : m.ftAway <;> simp [form_step, h1, ha]
      · cases hh : m.ftHome <;> simp [form_step, h1, hh]
    rw [List.foldl_cons, hstep, ih fun x hx => hinv x (List.mem_cons_of_mem m hx)]

/-- A match record with no full-time goal counts (an unfinished or
malformed entry): the loop skips it. -/
def invalid_match : MatchRec := ⟨0, 1, none, none, "DRAW"⟩

/-- Form summary with one goal per game on both sides. -/
def unit_form : TeamFormSummary := ⟨1, 1, 0, 0⟩

/-- Form summary with no goals at all. -/
def zero_form : TeamFormSummary := ⟨0, 0, 0, 0⟩

/-- Home side of the end-to-end scenario of §8: gf=2.0, ga=1.0. -/
def home_form : TeamFormSummary := ⟨2, 1, 0, 0⟩

/-- Away side of the end-to-end scenario of §8: gf=1.0, ga=1.5. -/
def away_form : TeamFormSummary := ⟨1, 1.5, 0, 0⟩

/-- The all-zero 2×2 grid: zero total mass. -/
def zero_grid : Fin 2 → Fin 2 → ℚ := fun _ _ => 0

/-- A 1×1 grid of mass one. -/
def one_grid : Fin 1 → Fin 1 → ℚ := fun _ _ => 1

/-- The three divisions of `outcome_probs` sum to one whenever the grid's
total mass is nonzero. -/
lemma outcome_probs_sum_one {α : Type} [Field α] {n : ℕ} (g : Fin n → Fin n → α)
    (hs : home_mass g + draw_mass g + away_mass g ≠ 0) :
    (outcome_probs g).1 + (outcome_probs g).2.1 + (outcome_probs g).2.2 = 1 := by
  simp only [outcome_probs]
  rw [div_add_div_same, div_add_div_same, div_self hs]

/-- The grid factors as the constant `e^(−lh)·e^(−la)` times a grid of pure
rational data, which lets the exponential cancel in comparisons. -/
lemma score_matrix_factor (lh la : ℝ) (n : ℕ) :
    score_matrix lh la n = fun (h a : Fin (n + 1)) =>
      (Real.exp (-lh) * Real.exp (-la)) *
        (lh ^ (h : ℕ) / (Nat.factorial (h : ℕ)) *
          (la ^ (a : ℕ) / (Nat.factorial (a : ℕ)))) := by
  funext h a
  unfold score_matrix poisson_prob
  ring

/-- Bounds the estimator's two returned rates: the home rate keeps the
claimed `[0.2, 3.2]` range, while the away rate can drop to `0.19` because
the `0.95` weather factor is applied after the `0.2` floor. -/
lemma estimate_bounds_helper (hs aw : TeamFormSummary) (desc : String) (lh la : ℚ)
    (h : estimate hs aw desc = some (lh, la)) :
    1/5 ≤ lh ∧ lh ≤ 3.2 ∧ 19/100 ≤ la ∧ la ≤ 3.2 := by
  rcases hfw : first_word desc with _ | w
  · rw [estimate_of_first_word_none hs aw hfw] at h
    exact absurd h (by simp)
  · by_cases hw : py_lower w = "rain" ∨ py_lower w = "snow"
    · rw [estimate_of_rain hs aw hfw hw] at h
      simp only [Option.some.injEq, Prod.mk.injEq] at h
      obtain ⟨h1, h2⟩ := h
      subst h1
      subst h2
      refine ⟨le_min ?_ (by norm_num), min_le_right _ _,
        le_min ?_ (by norm_num), min_le_right _ _⟩
      · nlinarith [le_max_left (0.2 : ℚ) (0.65 * hs.gf + 0.35 * aw.ga)]
      · nlinarith [le_max_left (0.2 : ℚ) (0.65 * aw.gf + 0.35 * hs.ga)]
    · rw [estimate_of_not_rain hs aw hfw hw] at h
      simp only [Option.some.injEq, Prod.mk.injEq] at h
      obtain ⟨h1, h2⟩ := h
      subst h1
      subst h2
      refine ⟨le_min ?_ (by norm_num), min_le_right _ _,
        le_min ?_ (by norm_num), min_le_right _ _⟩
      · nlinarith [le_max_left (0.2 : ℚ) (0.65 * hs.gf + 0.35 * aw.ga)]
      · nlinarith [le_max_left (0.2 : ℚ) (0.65 * aw.gf + 0.35 * hs.ga)]

/-- Evaluation of the estimator on the §8 end-to-end scenario:
`lh = max(0.2, 0.65·2.0 + 0.35·1.5)·1.12 = 1.825·1.12 = 2.044` (not the
1.8825 the spec computes) and `la = 1`. -/
lemma estimate_scenario_eval :
    estimate home_form away_form "clear" = some (2.044, 1) := by
  rw [estimate_of_not_rain _ _ (rfl : first_word "clear" = some "clear") (by decide)]
  norm_num [home_form, away_form, min_def, max_def]

/-- Evaluation of the estimator on the symmetric unit summaries. -/
lemma estimate_unit_eval :
    estimate unit_form unit_form "clear" = some (28/25, 1) := by
  rw [estimate_of_not_rain _ _ (rfl : first_word "clear" = some "clear") (by decide)]
  norm_num [unit_form, min_def, max_def]

/-- Claim C1 (counterexample): a one-element match list whose record lacks
both full-time goal counts has zero valid matches, yet `recent_team_stats`
does not return the default summary (it returns gf=0, ga=0, ppg=0,
form=-1). -/
theorem recent_team_stats_all_invalid_cex :
    recent_team_stats 0 [invalid_match] ≠ default_summary := by
  intro h
  have := congrArg TeamFormSummary.form_val h
  simp [recent_team_stats, invalid_match, form_step, default_summary,
    List.foldl_cons, List.foldl_nil] at this
  norm_num at this

/-- Claim C1 (amended): `recent_team_stats` returns the default summary
exactly when the match list itself is empty; a nonempty list in which every
record lacks a full-time home or away goal count instead yields the
all-zero summary with form value -1 (division by `max(count,1) = 1`). -/
theorem recent_team_stats_default_policy (tid : ℕ) (ms : List MatchRec)
    (hne : ms ≠ [])
    (hinv : ∀ m ∈ ms, m.ftHome = none ∨ m.ftAway = none) :
    recent_team_stats tid ms = ⟨0, 0, 0, -1⟩ ∧
      recent_team_stats tid [] = default_summary := by
  refine ⟨?_, rfl⟩
  cases ms with
  | nil => exact absurd rfl hne
  | cons m t =>
    have hfold := foldl_form_step_invalid tid (m :: t) hinv ⟨0, 0, 0, 0⟩
    simp only [recent_team_stats, List.isEmpty_cons, Bool.false_eq_true,
      if_false, hfold]
    norm_num

/-- Claim C1 witness: the amended statement applied to the one-element
all-invalid window. -/
theorem recent_team_stats_default_policy_witness :
    recent_team_stats 0 [invalid_match] = ⟨0, 0, 0, -1⟩ ∧
      recent_team_stats 0 [] = default_summary :=
  recent_team_stats_default_policy 0 [invalid_match] (by simp)
    (by intro m hm; rw [List.mem_singleton] at hm; subst hm; exact Or.inl rfl)

/-- Claim C2 (counterexample): with zero-goal summaries and weather "rain",
the away rate returned by the estimator is 0.19, strictly below the claimed
0.2 floor (the 0.95 dampening is applied after the floor). -/
theorem estimate_rain_floor_cex :
    estimate zero_form zero_form "rain" = some (133/625, 19/100) ∧
      ¬(1/5 ≤ (19/100 : ℚ)) := by
  constructor
  · rw [estimate_of_rain _ _ (rfl : first_word "rain" = some "rain") (by decide)]
    norm_num [zero_form, min_def, max_def]
  · norm_num

/-- Claim C2 (amended): every pair of rates the estimator returns satisfies
`0.2 ≤ lambdaHome ≤ 3.2` and `0.19 ≤ lambdaAway ≤ 3.2`; the away rate's
lower bound is 0.19 rather than 0.2 because rain/snow dampening multiplies
the floored base rate by 0.95. -/
theorem estimate_rate_bounds (hs aw : TeamFormSummary) (desc : String)
    (lh la : ℚ) (h : estimate hs aw desc = some (lh, la)) :
    1/5 ≤ lh ∧ lh ≤ 3.2 ∧ 19/100 ≤ la ∧ la ≤ 3.2 :=
  estimate_bounds_helper hs aw desc lh la h

/-- Claim C2 witness: the bounds at the unit summaries under "clear". -/
theorem estimate_rate_bounds_witness :
    1/5 ≤ (28/25 : ℚ) ∧ (28/25 : ℚ) ≤ 3.2 ∧ 19/100 ≤ (1 : ℚ) ∧ (1 : ℚ) ≤ 3.2 :=
  estimate_rate_bounds unit_form unit_form "clear" (28/25) 1 estimate_unit_eval

/-- Claim C3 (counterexample): the first word of "light rain" is "light",
so no dampening fires: the rates under "light rain" equal those under
"clear" instead of being 0.95 times them. -/
theorem estimate_light_rain_cex :
    estimate unit_form unit_form "light rain" = some (28/25, 1) ∧
      estimate unit_form unit_form "clear" = some (28/25, 1) ∧
      (28/25 : ℚ) ≠ 0.95 * (28/25) := by
  refine ⟨?_, estimate_unit_eval, by norm_num⟩
  rw [estimate_of_not_rain _ _ (rfl : first_word "light rain" = some "light")
    (by decide)]
  norm_num [unit_form, min_def, max_def]

/-- Claim C3 (amended): "light rain" does not trigger the dampening (its
first word is "light"), so estimate(...,"light rain") equals
estimate(...,"clear"); the 0.95 relation does hold for a description whose
first word is "rain", provided neither pre-clamp base rate exceeds the 3.2
cap. -/
theorem estimate_weather_dampening :
    (∀ hs aw : TeamFormSummary,
      estimate hs aw "light rain" = estimate hs aw "clear") ∧
    (∀ (hs aw : TeamFormSummary) (lhc lac : ℚ),
      max 0.2 (0.65 * hs.gf + 0.35 * aw.ga) * 1.12 ≤ 3.2 →
      max 0.2 (0.65 * aw.gf + 0.35 * hs.ga) ≤ 3.2 →
      estimate hs aw "clear" = some (lhc, lac) →
      estimate hs aw "rain" = some (0.95 * lhc, 0.95 * lac)) := by
  constructor
  · intro hs aw
    rw [estimate_of_not_rain hs aw (rfl : first_word "light rain" = some "light")
        (by decide),
      estimate_of_not_rain hs aw (rfl : first_word "clear" = some "clear")
        (by decide)]
  · intro hs aw lhc lac hbh hba hclear
    rw [estimate_of_not_rain hs aw (rfl : first_word "clear" = some "clear")
      (by decide)] at hclear
    simp only [Option.some.injEq, Prod.mk.injEq] at hclear
    obtain ⟨h1, h2⟩ := hclear
    rw [min_eq_left hbh] at h1
    rw [min_eq_left hba] at h2
    rw [estimate_of_rain hs aw (rfl : first_word "rain" = some "rain") (by decide),
      min_eq_left (by nlinarith), min_eq_left (by nlinarith), ← h1, ← h2]
    rw [mul_comm _ (0.95 : ℚ), mul_comm _ (0.95 : ℚ)]

/-- Claim C3 witness: the dampening relation applied to the unit summaries,
whose clear rates are (1.12, 1). -/
theorem estimate_weather_dampening_witness :
    estimate unit_form unit_form "rain" = some (0.95 * (28/25), 0.95 * 1) :=
  estimate_weather_dampening.2 unit_form unit_form (28/25) 1
    (by norm_num [unit_form, max_def]) (by norm_num [unit_form, max_def])
    estimate_unit_eval

/-- Claim C4: every cell of the grid built by `score_matrix` is the product
of the two Poisson probability masses exactly as the spec's formula states,
and in particular `grid[1][1]` for rates (1.5, 1.0) with maxGoals 6 is
`PoissonPMF(1,1.5) · PoissonPMF(1,1.0)`. -/
theorem score_matrix_cell_spec :
    (∀ (lh la : ℝ) (n : ℕ) (h a : Fin (n + 1)),
      score_matrix lh la n h a = PoissonPMF (h : ℕ) lh * PoissonPMF (a : ℕ) la) ∧
    score_matrix 1.5 1 6 1 1 = PoissonPMF 1 1.5 * PoissonPMF 1 1 := by
  refine ⟨fun lh la n h a => rfl, ?_⟩
  show poisson_prob ((1 : Fin 7) : ℕ) 1.5 * poisson_prob ((1 : Fin 7) : ℕ) 1 = _
  norm_num [poisson_prob, PoissonPMF]

/-- Claim C5: for every grid of nonzero total mass, `outcome_probs` returns
exactly the below-diagonal, diagonal and above-diagonal sums divided by
their total, and the three returned values sum to 1. -/
theorem outcome_probs_spec :
    ∀ (α : Type) [inst : Field α] (n : ℕ) (g : Fin n → Fin n → α),
      home_mass g + draw_mass g + away_mass g ≠ 0 →
      outcome_probs g =
        (home_mass g / (home_mass g + draw_mass g + away_mass g),
         draw_mass g / (home_mass g + draw_mass g + away_mass g),
         away_mass g / (home_mass g + draw_mass g + away_mass g)) ∧
      (outcome_probs g).1 + (outcome_probs g).2.1 + (outcome_probs g).2.2 = 1 := by
  intro α inst n g hs
  exact ⟨rfl, outcome_probs_sum_one g hs⟩

/-- Claim C5 witness: the aggregator on the 1×1 unit grid. -/
theorem outcome_probs_spec_witness :
    outcome_probs one_grid =
      (home_mass one_grid / (home_mass one_grid + draw_mass one_grid + away_mass one_grid),
       draw_mass one_grid / (home_mass one_grid + draw_mass one_grid + away_mass one_grid),
       away_mass one_grid / (home_mass one_grid + draw_mass one_grid + away_mass one_grid)) ∧
    (outcome_probs one_grid).1 + (outcome_probs one_grid).2.1 +
      (outcome_probs one_grid).2.2 = 1 :=
  outcome_probs_spec ℚ 1 one_grid
    (by norm_num [home_mass, draw_mass, away_mass, one_grid, Fin.sum_univ_one])

/-- Claim C6: `most_likely_scoreline` returns the coordinates of a cell of
maximal probability, and among equal maxima the row-major-first one (the
returned pair's flat index is least); in particular on the synthetic grid
with equal maxima at (0,0) and (1,1) it returns (0,0). -/
theorem most_likely_scoreline_correct :
    (∀ (α : Type) [inst : LinearOrder α] (n : ℕ)
      (g : Fin (n + 1) → Fin (n + 1) → α),
      ∃ hm am : Fin (n + 1), most_likely_scoreline g = ((hm : ℕ), (am : ℕ)) ∧
        (∀ h a, g h a ≤ g hm am) ∧
        (∀ h a, g h a = g hm am →
          (hm : ℕ) * (n + 1) + (am : ℕ) ≤ (h : ℕ) * (n + 1) + (a : ℕ))) ∧
    most_likely_scoreline tie_grid = (0, 0) := by
  refine ⟨fun α inst n g => most_likely_scoreline_spec g, ?_⟩
  norm_num [most_likely_scoreline, np_argmax, flat_cell, tie_grid, List.range_succ]

/-- Claim C6 witness: the tie-break scenario through the theorem. -/
theorem most_likely_scoreline_correct_witness :
    most_likely_scoreline tie_grid = (0, 0) :=
  most_likely_scoreline_correct.2

/-- Claim C7 (counterexample): `outcome_probs` has no zero-mass guard — on
the all-zero grid the three divisions are by zero (the field convention
maps them to 0, as numpy maps them to NaN), and the output is not a
probability distribution. -/
theorem outcome_probs_zero_mass_cex :
    home_mass zero_grid + draw_mass zero_grid + away_mass zero_grid = 0 ∧
      outcome_probs zero_grid = (0, 0, 0) ∧
      (outcome_probs zero_grid).1 + (outcome_probs zero_grid).2.1 +
        (outcome_probs zero_grid).2.2 ≠ 1 := by
  refine ⟨by norm_num [home_mass, draw_mass, away_mass, zero_grid], ?_, ?_⟩ <;>
    norm_num [outcome_probs, home_mass, draw_mass, away_mass, zero_grid]

/-- Claim C7 (amended): the aggregator contains no defensive guard: at zero
total mass its three divisions are division by zero (junk output, `(0,0,0)`
under the field convention); for every grid of nonzero total mass it
succeeds with a triple summing to 1. -/
theorem outcome_probs_no_guard :
    ∀ (α : Type) [inst : Field α] (n : ℕ) (g : Fin n → Fin n → α),
      (home_mass g + draw_mass g + away_mass g = 0 →
        outcome_probs g = (0, 0, 0)) ∧
      (home_mass g + draw_mass g + away_mass g ≠ 0 →
        (outcome_probs g).1 + (outcome_probs g).2.1 +
          (outcome_probs g).2.2 = 1) := by
  intro α inst n g
  refine ⟨fun h0 => ?_, fun hs => outcome_probs_sum_one g hs⟩
  simp only [outcome_probs, h0, div_zero]

/-- Claim C7 witness: both branches at concrete grids. -/
theorem outcome_probs_no_guard_witness :
    outcome_probs zero_grid = (0, 0, 0) ∧
      (outcome_probs one_grid).1 + (outcome_probs one_grid).2.1 +
        (outcome_probs one_grid).2.2 = 1 :=
  ⟨(outcome_probs_no_guard ℚ 2 zero_grid).1
      (by norm_num [home_mass, draw_mass, away_mass, zero_grid]),
    (outcome_probs_no_guard ℚ 1 one_grid).2
      (by norm_num [home_mass, draw_mass, away_mass, one_grid, Fin.sum_univ_one])⟩

/-- Claim C8 (counterexample): on the empty weather description the
`desc.split()[0]` lookup fails (IndexError) — the estimator does not return
a result. -/
theorem estimate_empty_desc_cex :
    first_word "" = none ∧ estimate unit_form unit_form "" = none :=
  ⟨rfl, estimate_of_first_word_none _ _ rfl⟩

/-- Claim C8 (amended): the estimator is a pure deterministic function of
the two summaries and the split of the description — it depends only on the
first word — and it returns a result for every description containing at
least one word; it fails (IndexError, modelled as `none`) exactly on a
wordless description such as the empty string. -/
theorem estimate_totality :
    (∀ (hs aw : TeamFormSummary) (desc : String),
      first_word desc = none → estimate hs aw desc = none) ∧
    (∀ (hs aw : TeamFormSummary) (desc w : String),
      first_word desc = some w → ∃ p : ℚ × ℚ, estimate hs aw desc = some p) ∧
    (∀ (hs aw : TeamFormSummary) (d1 d2 : String),
      first_word d1 = first_word d2 → estimate hs aw d1 = estimate hs aw d2) := by
  refine ⟨fun hs aw desc h => estimate_of_first_word_none hs aw h, ?_, ?_⟩
  · intro hs aw desc w hfw
    by_cases hw : py_lower w = "rain" ∨ py_lower w = "snow"
    · exact ⟨_, estimate_of_rain hs aw hfw hw⟩
    · exact ⟨_, estimate_of_not_rain hs aw hfw hw⟩
  · intro hs aw d1 d2 h
    unfold estimate
    rw [h]

/-- Claim C8 witness: the totality statement at concrete descriptions. -/
theorem estimate_totality_witness :
    estimate unit_form unit_form "" = none ∧
      ∃ p : ℚ × ℚ, estimate unit_form unit_form "clear" = some p :=
  ⟨estimate_totality.1 unit_form unit_form "" rfl,
    estimate_totality.2.1 unit_form unit_form "clear" "clear" rfl⟩

/-- Claim C9 (counterexample): on the §8 end-to-end inputs the estimator
returns lambdaHome = 1.825·1.12 = 2.044, not the 1.8825 the claim asserts
(the spec's arithmetic slip). -/
theorem end_to_end_rate_cex :
    estimate home_form away_form "clear" = some (2.044, 1) ∧
      (2.044 : ℚ) ≠ 1.8825 := ⟨estimate_scenario_eval, by norm_num⟩

/-- Claim C9 (amended): on homeForm=(2.0,1.0), awayForm=(1.0,1.5), weather
"clear" the estimator returns lambdaHome = 2.044 (= 1.825·1.12) and
lambdaAway = 1.0, and feeding these rates into the grid builder and
aggregator yields pHome > pAway. -/
theorem end_to_end_scenario :
    estimate home_form away_form "clear" = some (2.044, 1) ∧
      (outcome_probs (score_matrix 2.044 1 6)).2.2 <
        (outcome_probs (score_matrix 2.044 1 6)).1 := by
  refine ⟨estimate_scenario_eval, ?_⟩
  have hs : 0 < home_mass (score_matrix 2.044 1 6) +
      draw_mass (score_matrix 2.044 1 6) + away_mass (score_matrix 2.044 1 6) :=
    total_mass_pos fun h a => score_matrix_pos (by norm_num) (by norm_num) h a
  have hlt : away_mass (score_matrix 2.044 1 6) <
      home_mass (score_matrix 2.044 1 6) := by
    rw [score_matrix_factor, home_mass_smul, away_mass_smul]
    have hE : (0:ℝ) < Real.exp (-(2.044:ℝ)) * Real.exp (-(1:ℝ)) :=
      mul_pos (Real.exp_pos _) (Real.exp_pos _)
    refine mul_lt_mul_of_pos_left ?_ hE
    simp only [home_mass, away_mass, Fin.sum_univ_succ, Fin.sum_univ_zero]
    norm_num [Nat.factorial]
  show away_mass (score_matrix 2.044 1 6) /
      (home_mass (score_matrix 2.044 1 6) + draw_mass (score_matrix 2.044 1 6)
        + away_mass (score_matrix 2.044 1 6)) <
    home_mass (score_matrix 2.044 1 6) /
      (home_mass (score_matrix 2.044 1 6) + draw_mass (score_matrix 2.044 1 6)
        + away_mass (score_matrix 2.044 1 6))
  exact (div_lt_div_iff_of_pos_right hs).mpr hlt

/-- Claim C10: every pair of rates the estimator actually returns is
strictly positive (the 0.2 floor precedes the 1.12 and 0.95 multipliers),
hence every cell of the grid built from them is strictly positive, and so
is the aggregator's unguarded denominator — its divisions never divide by
zero, and the `argmax` ranges over strictly positive entries. -/
theorem pipeline_grid_positive (hs aw : TeamFormSummary) (desc : String)
    (lh la : ℚ) (h : estimate hs aw desc = some (lh, la)) :
    0 < lh ∧ 0 < la ∧
      (∀ h a : Fin 7, 0 < score_matrix (lh : ℝ) (la : ℝ) 6 h a) ∧
      0 < home_mass (score_matrix (lh : ℝ) (la : ℝ) 6) +
          draw_mass (score_matrix (lh : ℝ) (la : ℝ) 6) +
          away_mass (score_matrix (lh : ℝ) (la : ℝ) 6) := by
  obtain ⟨hlh, _, hla, _⟩ := estimate_bounds_helper hs aw desc lh la h
  have hlh0 : (0:ℚ) < lh := by linarith
  have hla0 : (0:ℚ) < la := by linarith
  have hlhR : (0:ℝ) < (lh : ℝ) := by exact_mod_cast hlh0
  have hlaR : (0:ℝ) < (la : ℝ) := by exact_mod_cast hla0
  exact ⟨hlh0, hla0, fun h a => score_matrix_pos hlhR hlaR h a,
    total_mass_pos fun h a => score_matrix_pos hlhR hlaR h a⟩

/-- Claim C10 witness: positivity of the pipeline at the unit summaries. -/
theorem pipeline_grid_positive_witness :
    0 < (28/25 : ℚ) ∧ 0 < (1 : ℚ) ∧
      (∀ h a : Fin 7, 0 < score_matrix ((28/25 : ℚ) : ℝ) ((1 : ℚ) : ℝ) 6 h a) ∧
      0 < home_mass (score_matrix ((28/25 : ℚ) : ℝ) ((1 : ℚ) : ℝ) 6) +
          draw_mass (score_matrix ((28/25 : ℚ) : ℝ) ((1 : ℚ) : ℝ) 6) +
          away_mass (score_matrix ((28/25 : ℚ) : ℝ) ((1 : ℚ) : ℝ) 6) :=
  pipeline_grid_positive unit_form unit_form "clear" (28/25) 1 estimate_unit_eval
